import Mathlib

/-!
Shallow embedding of `solve_captcha.py`, a command-line CAPTCHA solver.

The script has three stages: image loading/normalisation (`preprocess_image`),
a call into an external pre-trained model (`model.predict`), and argmax
decoding (`index_to_char` over `np.argmax`).  The embedding below translates
each function of the script into a Lean definition; external library calls
(`cv2.imread`, `model.predict`) become oracle parameters, and documented
library semantics (`np.argmax`, Python `chr`/`str`, `argparse`) become
executable Lean models.  Observable process behaviour (printing, setting an
environment variable, importing TensorFlow, loading the model, running
inference, exiting) is recorded as an event trace.
-/

namespace SolveCaptcha

/- A Python `str` is a sequence of Unicode code points (surrogates included),
so characters are modelled as natural-number code points and the strings of
the decoding pipeline as lists of code points (`List Nat`). -/

/-- A BGR pixel as read by `cv2.imread`: three `uint8` channel values,
modelled as natural numbers (boundedness by 255 is carried as a hypothesis
where a claim needs it). -/
abbrev Pixel := Nat × Nat × Nat

/-- A raster image: a list of rows of pixels. -/
abbrev Img := List (List Pixel)

/-- A normalised pixel: three rational channel values (the script divides the
`uint8` channels by 255.0; we model the resulting floats as rationals, which
is exact for these divisions). -/
abbrev QPixel := ℚ × ℚ × ℚ

/-- The tensor passed to the model: a batch (leading axis added by
`np.expand_dims`) of normalised images. -/
abbrev Tensor := List (List (List QPixel))

/-- `IMG_WIDTH = 250` from the script. -/
def IMG_WIDTH : Nat := 250

/-- `IMG_HEIGHT = 50` from the script. -/
def IMG_HEIGHT : Nat := 50

/-- `MODEL_PATH = "captcha_model.keras"` from the script. -/
def MODEL_PATH : String := "captcha_model.keras"

/-- Model of Python `chr`: valid for code points `0 ≤ n ≤ 0x10FFFF`
(1114111); for larger arguments `chr` raises `ValueError`, modelled as
`none`. -/
def pyChr (n : Nat) : Option Nat :=
  if n < 1114112 then some n else none

/-- Model of Python `str(n)` for a non-negative integer `n`: the decimal
digits of `n` as code points. -/
def pyStrOfNat (n : Nat) : List Nat :=
  (Nat.repr n).data.map Char.toNat

/-- `index_to_char` from the script:
`if index < 10: return str(index) else: return chr(index - 10 + ord("a"))`.
`ord("a") = 97`.  The result is a Python string (list of code points);
`none` models a raised `ValueError` from `chr`. -/
def index_to_char (index : Nat) : Option (List Nat) :=
  if index < 10 then some (pyStrOfNat index)
  else (pyChr (index - 10 + 97)).map (fun c => [c])

/-- Whether a code point lies in the CAPTCHA alphabet `[0-9a-z]`:
digits are code points 48–57, lowercase letters 97–122. -/
def isCaptchaCode (c : Nat) : Bool :=
  (48 ≤ c && c ≤ 57) || (97 ≤ c && c ≤ 122)

/-- Model of `np.argmax` on a 1-D array, per numpy's documented semantics:
the index of the first occurrence of the maximum value; on an empty array
`np.argmax` raises `ValueError`, modelled as `none`. -/
def npArgmax : List ℚ → Option Nat
  | [] => none
  | x :: xs =>
    let m := xs.foldl max x
    some ((x :: xs).findIdx (fun y => decide (m ≤ y)))

/-- The decoding loop of `predict_captcha`:
`"".join([index_to_char(np.argmax(pred)) for pred in predictions])`.
Each slot's distribution is argmax-decoded to a character string and the
pieces are concatenated; `none` models an exception escaping the loop. -/
def decodeSlots : List (List ℚ) → Option (List Nat)
  | [] => some []
  | pred :: rest =>
    match (npArgmax pred).bind index_to_char, decodeSlots rest with
    | some cs, some tl => some (cs ++ tl)
    | _, _ => none

/-- Model of `cv2.resize(img, (IMG_WIDTH, IMG_HEIGHT))`, faithful in shape
and in value provenance: the output is an `IMG_HEIGHT × IMG_WIDTH` grid each
of whose pixels is sampled from the source image (cv2's interpolation of
`uint8` data never leaves the range spanned by the source values; the exact
interpolation kernel is abstracted as coordinate sampling). -/
def cv2Resize (img : Img) : Img :=
  let h := img.length
  let w := (img.headD []).length
  (List.range IMG_HEIGHT).map (fun r =>
    (List.range IMG_WIDTH).map (fun c =>
      (img.getD (r * h / IMG_HEIGHT) []).getD (c * w / IMG_WIDTH) (0, 0, 0)))

/-- `img.astype(np.float32) / 255.0`: divide every channel of every pixel
by 255. -/
def normalizeImg (img : Img) : List (List QPixel) :=
  img.map (fun row => row.map (fun p =>
    ((p.1 : ℚ) / 255, (p.2.1 : ℚ) / 255, (p.2.2 : ℚ) / 255)))

/-- The tensor produced by `preprocess_image` on a successfully read image:
resize, normalise, and add a batch dimension of size 1
(`np.expand_dims(img, axis=0)`). -/
def preTensor (img : Img) : Tensor :=
  [normalizeImg (cv2Resize img)]

/-- Observable process events of one run of the script. -/
inductive Event where
  | printMsg (s : String)
  | setEnvVar (name value : String)
  | importTF
  | loadModel (path : String)
  | runInference
  | exitProc (code : Nat)
deriving DecidableEq, Repr

/-- `preprocess_image(img_path)`: `cv2.imread` (an oracle `imread` mapping a
path to `some` image or `none` when the file is missing or unreadable); on
failure print the error message and `sys.exit(1)`; on success return the
preprocessed tensor. -/
def preprocess_image (imread : String → Option Img) (img_path : String) :
    List Event × Option Tensor :=
  match imread img_path with
  | none =>
    ([Event.printMsg ("Error: Image not found at " ++ img_path),
      Event.exitProc 1], none)
  | some img => ([], some (preTensor img))

/-- `predict_captcha(img_path, verbose)`: preprocess the image (exiting on
failure), run `model.predict` (the model is an oracle from tensors to a list
of per-slot probability distributions; the `verbose` argument only controls
library logging and is ignored by the model oracle), and argmax-decode. -/
def predict_captcha (imread : String → Option Img)
    (model : Tensor → List (List ℚ)) (img_path : String) (verbose : Nat) :
    List Event × Option (List Nat) :=
  match preprocess_image imread img_path with
  | (evs, none) => (evs, none)
  | (evs, some t) =>
    (evs ++ [Event.runInference], decodeSlots (model t))

/-- Model of `argparse` for this script: one optional flag `--verbose`
(`store_true`) and one required positional `image_path`.  On a parse error
(`--`-style argument other than `--verbose`, no positional, or more than one
positional) argparse prints a usage/error message and exits with status 2;
modelled as `Except.error msg`.  `argv` is `sys.argv[1:]`. -/
def parse_args (argv : List String) : Except String (Bool × String) :=
  let verbose := argv.contains ("--verbose")
  let rest := argv.filter (fun a => a ≠ "--verbose")
  if rest.any (fun a => a.data.head? = some ('-')) then
    Except.error ("error: unrecognized arguments")
  else
    match rest with
    | [] => Except.error ("error: the following arguments are required: image_path")
    | [p] => Except.ok (verbose, p)
    | _ => Except.error ("error: unrecognized arguments")

/-- The usage line printed by the script's own empty-path check:
`print(f"Usage: sys.argv[0] [--verbose] <image_path>")`. -/
def usageMsg (prog : String) : String :=
  "Usage: " ++ prog ++ " [--verbose] <image_path>"

/-- The `__main__` block: parse arguments (argparse exits with status 2 on a
parse error), set `TF_CPP_MIN_LOG_LEVEL=3` when `--verbose` is absent, import
TensorFlow, check for an empty `image_path` (usage message and exit 1), load
the model, predict and return the decoded text.  `prog` is `sys.argv[0]`.
The result is the event trace paired with the decoded output, `none` when the
run terminated before producing one. -/
def mainRun (imread : String → Option Img) (model : Tensor → List (List ℚ))
    (prog : String) (argv : List String) :
    List Event × Option (List Nat) :=
  match parse_args argv with
  | Except.error msg => ([Event.printMsg msg, Event.exitProc 2], none)
  | Except.ok (verbose, image_path) =>
    let e1 : List Event :=
      if verbose then [] else [Event.setEnvVar ("TF_CPP_MIN_LOG_LEVEL") ("3")]
    let e2 := e1 ++ [Event.importTF]
    if image_path = "" then
      (e2 ++ [Event.printMsg (usageMsg prog), Event.exitProc 1], none)
    else
      let e3 := e2 ++ [Event.loadModel MODEL_PATH]
      let r := predict_captcha imread model image_path (if verbose then 1 else 0)
      (e3 ++ r.1, r.2)

/-- A concrete `cv2.imread` oracle under which no path is readable. -/
def noneImread : String → Option Img := fun _ => none

/-- A concrete 1×1 image. -/
def oneImg : Img := [[(10, 20, 30)]]

/-- A concrete `cv2.imread` oracle under which every path reads `oneImg`. -/
def oneImread : String → Option Img := fun _ => some oneImg

/-- A concrete model oracle with two output slots of two classes each:
slot one peaks at index 1, slot two at index 0. -/
def twoSlotModel : Tensor → List (List ℚ) := fun _ => [[0, 1], [1, 0]]

/-- A concrete model oracle producing no output slots. -/
def emptyModel : Tensor → List (List ℚ) := fun _ => []

/-! ### Helper lemmas -/

/-- In a successful parse, the `verbose` component is exactly the presence of
the `--verbose` flag in `argv`. -/
lemma parse_args_ok_verbose (argv : List String) (v : Bool) (p : String)
    (h : parse_args argv = Except.ok (v, p)) :
    v = argv.contains ("--verbose") := by
  simp only [parse_args] at h
  split at h
  · simp at h
  · split at h
    · simp at h
    · have := Except.ok.inj h
      exact (congrArg Prod.fst this).symm
    · simp at h

/-- `predict_captcha` never sets an environment variable. -/
lemma predict_captcha_no_setenv (imread : String → Option Img)
    (model : Tensor → List (List ℚ)) (p : String) (vb : Nat)
    (n val : String) :
    Event.setEnvVar n val ∉ (predict_captcha imread model p vb).1 := by
  unfold predict_captcha preprocess_image
  cases imread p <;> simp

lemma le_foldl_max_init (xs : List ℚ) (a : ℚ) : a ≤ xs.foldl max a := by
  induction xs generalizing a with
  | nil => exact le_refl a
  | cons x xs ih =>
    rw [List.foldl_cons]
    exact le_trans (le_max_left a x) (ih (max a x))

lemma foldl_max_mem (xs : List ℚ) (a : ℚ) :
    xs.foldl max a = a ∨ xs.foldl max a ∈ xs := by
  induction xs generalizing a with
  | nil => exact Or.inl rfl
  | cons x xs ih =>
    rw [List.foldl_cons]
    rcases ih (max a x) with h | h
    · rcases max_choice a x with h2 | h2
      · exact Or.inl (h.trans h2)
      · exact Or.inr (by rw [h, h2]; exact List.mem_cons_self x xs)
    · exact Or.inr (List.mem_cons_of_mem x h)

lemma le_foldl_max (xs : List ℚ) (a b : ℚ) (hb : b ∈ xs) :
    b ≤ xs.foldl max a := by
  induction xs generalizing a with
  | nil => cases hb
  | cons x xs ih =>
    rw [List.foldl_cons]
    rcases List.mem_cons.mp hb with h | h
    · subst h
      exact le_trans (le_max_right a b) (le_foldl_max_init xs (max a b))
    · exact ih (max a x) h

/-- `np.argmax` on a nonempty distribution returns the first-occurring index
of the maximum value. -/
lemma npArgmax_spec (l : List ℚ) (h : l ≠ []) :
    ∃ i, npArgmax l = some i ∧ i < l.length ∧
      (∀ j, j < l.length → l.getD j 0 ≤ l.getD i 0) ∧
      (∀ j, j < i → l.getD j 0 < l.getD i 0) := by
  match l, h with
  | x :: xs, _ =>
    have hmem : xs.foldl max x ∈ x :: xs := by
      rcases foldl_max_mem xs x with h1 | h1
      · rw [h1]; exact List.mem_cons_self x xs
      · exact List.mem_cons_of_mem x h1
    have hub : ∀ b ∈ x :: xs, b ≤ xs.foldl max x := by
      intro b hb
      rcases List.mem_cons.mp hb with h1 | h1
      · rw [h1]; exact le_foldl_max_init xs x
      · exact le_foldl_max xs x b h1
    have hex : ∃ y ∈ x :: xs,
        (fun y => decide (xs.foldl max x ≤ y)) y = true :=
      ⟨xs.foldl max x, hmem, by simp⟩
    have hlt :
        List.findIdx (fun y => decide (xs.foldl max x ≤ y)) (x :: xs) <
          (x :: xs).length :=
      List.findIdx_lt_length_of_exists hex
    have hpi : decide (xs.foldl max x ≤
        (x :: xs)[List.findIdx (fun y => decide (xs.foldl max x ≤ y)) (x :: xs)])
        = true :=
      @List.findIdx_getElem _ _ _ hlt
    have hmi := of_decide_eq_true hpi
    have hle := hub _ (List.getElem_mem hlt)
    have heq := le_antisymm hle hmi
    refine ⟨List.findIdx (fun y => decide (xs.foldl max x ≤ y)) (x :: xs),
      by simp [npArgmax], hlt, ?_, ?_⟩
    · intro j hj
      rw [List.getD_eq_getElem _ _ hj, List.getD_eq_getElem _ _ hlt, heq]
      exact hub _ (List.getElem_mem hj)
    · intro j hj
      have hjlen : j < (x :: xs).length := lt_trans hj hlt
      have hfalse : decide (xs.foldl max x ≤ (x :: xs)[j]) = false :=
        List.not_of_lt_findIdx hj
      have hnot := of_decide_eq_false hfalse
      rw [List.getD_eq_getElem _ _ hjlen, List.getD_eq_getElem _ _ hlt, heq]
      exact lt_of_not_le hnot

/-- On every index below 36, `index_to_char` yields a single character of the
CAPTCHA alphabet. -/
lemma index_to_char_lt36 (i : Nat) (h : i < 36) :
    ∃ c, index_to_char i = some [c] ∧ isCaptchaCode c = true := by
  have hall : ∀ j < 36, index_to_char j =
      some [if j < 10 then j + 48 else j + 87] ∧
      isCaptchaCode (if j < 10 then j + 48 else j + 87) = true := by decide
  rcases hall i h with ⟨h1, h2⟩
  exact ⟨_, h1, h2⟩

/-- The decoding loop succeeds on valid per-slot distributions, producing one
alphabet character per slot. -/
lemma decodeSlots_valid (preds : List (List ℚ))
    (h : ∀ p ∈ preds, p ≠ [] ∧ p.length ≤ 36) :
    ∃ s, decodeSlots preds = some s ∧ s.length = preds.length ∧
      ∀ c ∈ s, isCaptchaCode c = true := by
  induction preds with
  | nil => exact ⟨[], rfl, rfl, by simp⟩
  | cons p ps ih =>
    obtain ⟨hne, hlen⟩ := h p (List.mem_cons_self p ps)
    obtain ⟨s, hs, hsl, hsc⟩ := ih (fun q hq => h q (List.mem_cons_of_mem p hq))
    obtain ⟨i, hi, hilt, -, -⟩ := npArgmax_spec p hne
    have hi36 : i < 36 := lt_of_lt_of_le hilt hlen
    obtain ⟨c, hc, hcc⟩ := index_to_char_lt36 i hi36
    refine ⟨c :: s, ?_, by simp [hsl], ?_⟩
    · simp [decodeSlots, hi, hc, hs]
    · intro d hd
      rcases List.mem_cons.mp hd with h1 | h1
      · rw [h1]; exact hcc
      · exact hsc d h1

/-! ### Claim theorems -/

/-- C1: for every valid image path (one the image oracle can read) and model
output whose slots are nonempty distributions over at most 36 classes (the
spec's class count), `predict_captcha` returns a decoded string whose length
equals the number of output slots the model produces, every character of
which lies in `[0-9a-z]`. -/
theorem predict_captcha_output_valid (imread : String → Option Img)
    (model : Tensor → List (List ℚ)) (img_path : String) (verbose : Nat)
    (img : Img) (hread : imread img_path = some img)
    (hmodel : ∀ p ∈ model (preTensor img), p ≠ [] ∧ p.length ≤ 36) :
    ∃ s, (predict_captcha imread model img_path verbose).2 = some s ∧
      s.length = (model (preTensor img)).length ∧
      ∀ c ∈ s, isCaptchaCode c = true := by
  obtain ⟨s, hs, hl, hc⟩ := decodeSlots_valid (model (preTensor img)) hmodel
  exact ⟨s, by simp [predict_captcha, preprocess_image, hread, hs], hl, hc⟩

/-- Witness for C1: a readable 1×1 image and a concrete two-slot model give a
decoded two-character alphabet string. -/
theorem predict_captcha_output_valid_witness :
    oneImread ("a.png") = some oneImg ∧
    (∀ p ∈ twoSlotModel (preTensor oneImg), p ≠ [] ∧ p.length ≤ 36) ∧
    (∃ s, (predict_captcha oneImread twoSlotModel ("a.png") 0).2 = some s ∧
      s.length = (twoSlotModel (preTensor oneImg)).length ∧
      ∀ c ∈ s, isCaptchaCode c = true) :=
  ⟨rfl, by decide,
    predict_captcha_output_valid oneImread twoSlotModel ("a.png") 0 oneImg rfl
      (by decide)⟩

/-- C2: `index_to_char` is total and injective on indices 0 through 35,
mapping index 0 to `'0'` (code 48), index 9 to `'9'` (code 57), index 10 to
`'a'` (code 97), and index 35 to `'z'` (code 122); indices 0–9 map to the
corresponding digit characters (code `48 + i`) and indices 10–35 map to
lowercase letters via offset arithmetic (code `i - 10 + 97`). -/
theorem index_to_char_total_injective_on_alphabet :
    (∀ i < 36, (index_to_char i).isSome = true) ∧
    (∀ i < 36, ∀ j < 36, index_to_char i = index_to_char j → i = j) ∧
    index_to_char 0 = some [48] ∧
    index_to_char 9 = some [57] ∧
    index_to_char 10 = some [97] ∧
    index_to_char 35 = some [122] ∧
    (∀ i < 10, index_to_char i = some [48 + i]) ∧
    (∀ i < 36, 10 ≤ i → index_to_char i = some [i - 10 + 97]) := by
  decide

/-- Witness for C2, instantiating its bounded quantifiers at indices 5 and 7. -/
theorem index_to_char_total_injective_on_alphabet_witness :
    (index_to_char 5).isSome = true ∧
    (index_to_char 5 = index_to_char 7 → 5 = 7) ∧
    index_to_char 0 = some [48] :=
  ⟨index_to_char_total_injective_on_alphabet.1 5 (by decide),
    index_to_char_total_injective_on_alphabet.2.1 5 (by decide) 7 (by decide),
    index_to_char_total_injective_on_alphabet.2.2.1⟩

/-- C6: for an output slot's (nonempty) probability distribution, the decoder's
`np.argmax` selects an index of maximum probability, and every strictly
earlier index holds a strictly smaller value — so among tied maxima the
first-occurring (lowest) index is selected. -/
theorem decoder_selects_first_maximum (pred : List ℚ) (h : pred ≠ []) :
    ∃ i, npArgmax pred = some i ∧ i < pred.length ∧
      (∀ j, j < pred.length → pred.getD j 0 ≤ pred.getD i 0) ∧
      (∀ j, j < i → pred.getD j 0 < pred.getD i 0) :=
  npArgmax_spec pred h

/-- Witness for C6 at the concrete distribution `[1, 3, 3, 2]`. -/
theorem decoder_selects_first_maximum_witness :
    ([(1 : ℚ), 3, 3, 2] ≠ []) ∧
    (∃ i, npArgmax [1, 3, 3, 2] = some i ∧ i < 4 ∧
      (∀ j, j < 4 → List.getD [(1 : ℚ), 3, 3, 2] j 0 ≤ List.getD [(1 : ℚ), 3, 3, 2] i 0) ∧
      (∀ j, j < i → List.getD [(1 : ℚ), 3, 3, 2] j 0 < List.getD [(1 : ℚ), 3, 3, 2] i 0)) :=
  ⟨by decide, decoder_selects_first_maximum [1, 3, 3, 2] (by decide)⟩

/-- C7: argmax decoding is a pure function of the model's distributions — two
runs of `predict_captcha` (possibly with different image oracles, model
oracles, paths and verbosity) in which the model produces identical per-slot
probability outputs return identical decoded strings. -/
theorem decoding_deterministic (imr1 imr2 : String → Option Img)
    (m1 m2 : Tensor → List (List ℚ)) (p1 p2 : String) (v1 v2 : Nat)
    (i1 i2 : Img) (h1 : imr1 p1 = some i1) (h2 : imr2 p2 = some i2)
    (heq : m1 (preTensor i1) = m2 (preTensor i2)) :
    (predict_captcha imr1 m1 p1 v1).2 = (predict_captcha imr2 m2 p2 v2).2 := by
  simp [predict_captcha, preprocess_image, h1, h2, heq]

/-- Witness for C7: two runs on different paths and verbosity levels whose
model outputs agree decode identically. -/
theorem decoding_deterministic_witness :
    oneImread ("a.png") = some oneImg ∧
    oneImread ("b.png") = some oneImg ∧
    twoSlotModel (preTensor oneImg) = twoSlotModel (preTensor oneImg) ∧
    (predict_captcha oneImread twoSlotModel ("a.png") 0).2 =
      (predict_captcha oneImread twoSlotModel ("b.png") 1).2 :=
  ⟨rfl, rfl, rfl,
    decoding_deterministic oneImread oneImread twoSlotModel twoSlotModel
      ("a.png") ("b.png") 0 1 oneImg oneImg rfl rfl rfl⟩

/-- C10 counterexample: `index_to_char` is not total over all non-negative
indices — at index 1114025 the computed code point `1114025 - 10 + 97 =
1114112 = 0x110000` is out of range for Python `chr`, which raises
`ValueError` (modelled as `none`), so no character is returned. -/
theorem index_to_char_not_total_everywhere : index_to_char 1114025 = none := by
  decide

/-- C10 (amended): `index_to_char` performs no range validation.  For every
index from 36 up to 1114024 (the largest index for which `chr`'s argument is
a valid code point) it still returns a character, namely
`chr(index - 10 + ord('a'))`, which lies outside the `[0-9a-z]` alphabet;
for every larger index `chr` raises `ValueError`; and only indices 0–35 map
into the documented alphabet. -/
theorem index_to_char_no_range_validation (i : Nat) :
    (36 ≤ i → i ≤ 1114024 →
      index_to_char i = some [i - 10 + 97] ∧
      isCaptchaCode (i - 10 + 97) = false) ∧
    (1114024 < i → index_to_char i = none) ∧
    (∀ cs, index_to_char i = some cs →
      (∀ c ∈ cs, isCaptchaCode c = true) → i < 36) := by
  refine ⟨?_, ?_, ?_⟩
  · intro h36 hv
    have h10 : ¬ i < 10 := by omega
    have hc : i - 10 + 97 < 1114112 := by omega
    constructor
    · simp [index_to_char, pyChr, h10, hc]
    · simp only [isCaptchaCode, Bool.or_eq_false_iff, Bool.and_eq_false_iff,
        decide_eq_false_iff_not, not_le]
      exact ⟨Or.inr (by omega), Or.inr (by omega)⟩
  · intro hv
    have h10 : ¬ i < 10 := by omega
    have hc : ¬ i - 10 + 97 < 1114112 := by omega
    simp [index_to_char, pyChr, h10, hc]
  · intro cs hcs hall
    by_contra hge
    push_neg at hge
    by_cases hv : i ≤ 1114024
    · have h10 : ¬ i < 10 := by omega
      have hc : i - 10 + 97 < 1114112 := by omega
      have : cs = [i - 10 + 97] := by
        rw [index_to_char, if_neg h10, pyChr, if_pos hc] at hcs
        simpa using hcs.symm
      subst this
      have := hall (i - 10 + 97) (List.mem_singleton_self _)
      simp only [isCaptchaCode, Bool.or_eq_true, Bool.and_eq_true,
        decide_eq_true_eq] at this
      rcases this with ⟨_, h2⟩ | ⟨_, h2⟩ <;> omega
    · have h10 : ¬ i < 10 := by omega
      have hc : ¬ i - 10 + 97 < 1114112 := by omega
      rw [index_to_char, if_neg h10, pyChr, if_neg hc] at hcs
      simp at hcs

/-- Witness for C10 at index 36: the returned code point is 123 (`'\x7b'`),
outside the alphabet, and at index 2000000 `chr` fails. -/
theorem index_to_char_no_range_validation_witness :
    (index_to_char 36 = some [123] ∧ isCaptchaCode 123 = false) ∧
    index_to_char 2000000 = none :=
  ⟨(index_to_char_no_range_validation 36).1 (by decide) (by decide),
    (index_to_char_no_range_validation 2000000).2.1 (by decide)⟩

/-- C3: for every image path that the image oracle cannot load (missing or
corrupt image), the program's trace ends by printing an error message that
contains the path (as its suffix) and exiting with status 1, and no model
inference event ever occurs. -/
theorem unreadable_image_error_exit (imread : String → Option Img)
    (model : Tensor → List (List ℚ)) (prog : String) (argv : List String)
    (v : Bool) (path : String) (h : parse_args argv = Except.ok (v, path))
    (hne : path ≠ "") (hread : imread path = none) :
    (mainRun imread model prog argv).1 =
      (if v then [] else [Event.setEnvVar ("TF_CPP_MIN_LOG_LEVEL") ("3")]) ++
        [Event.importTF, Event.loadModel MODEL_PATH,
         Event.printMsg ("Error: Image not found at " ++ path),
         Event.exitProc 1] ∧
    (∃ a b, "Error: Image not found at " ++ path = a ++ path ++ b) ∧
    Event.runInference ∉ (mainRun imread model prog argv).1 := by
  have hmain : (mainRun imread model prog argv).1 =
      (if v then [] else [Event.setEnvVar ("TF_CPP_MIN_LOG_LEVEL") ("3")]) ++
        [Event.importTF, Event.loadModel MODEL_PATH,
         Event.printMsg ("Error: Image not found at " ++ path),
         Event.exitProc 1] := by
    cases v <;>
      simp [mainRun, h, hne, predict_captcha, preprocess_image, hread]
  refine ⟨hmain, ⟨"Error: Image not found at ", "", ?_⟩, ?_⟩
  · simp
  · rw [hmain]; cases v <;> simp

/-- Witness for C3 at the unreadable path `"missing.png"`. -/
theorem unreadable_image_error_exit_witness :
    parse_args (["missing.png"]) = Except.ok (false, "missing.png") ∧
    ("missing.png" ≠ "") ∧
    noneImread ("missing.png") = none ∧
    ((mainRun noneImread emptyModel ("solve_captcha.py") (["missing.png"])).1 =
      [Event.setEnvVar ("TF_CPP_MIN_LOG_LEVEL") ("3"),
       Event.importTF, Event.loadModel MODEL_PATH,
       Event.printMsg ("Error: Image not found at missing.png"),
       Event.exitProc 1] ∧
    (∃ a b, "Error: Image not found at missing.png" =
      a ++ "missing.png" ++ b) ∧
    Event.runInference ∉
      (mainRun noneImread emptyModel ("solve_captcha.py") (["missing.png"])).1) := by
  refine ⟨by rfl, by decide, rfl, ?_⟩
  have := unreadable_image_error_exit noneImread emptyModel
    ("solve_captcha.py") (["missing.png"]) false ("missing.png")
    (by rfl) (by decide) rfl
  simpa using this

/-- C4 counterexample: invoked with no positional image-path argument
(`argv = []`), the program does not exit with status 1 as claimed — argparse
terminates it with status 2 (its standard error exit code). -/
theorem missing_arg_exit_code_counterexample :
    Event.exitProc 1 ∉
      (mainRun noneImread emptyModel ("solve_captcha.py") []).1 ∧
    Event.exitProc 2 ∈
      (mainRun noneImread emptyModel ("solve_captcha.py") []).1 := by
  constructor <;> simp [mainRun, parse_args]

/-- C4 (amended): when the program is invoked with no positional image-path
argument (every argument, if any, is the `--verbose` flag), argparse prints
an error message and exits with status 2 — a non-zero status — before
attempting to load the model (and before the TensorFlow import). -/
theorem missing_arg_exits_with_status_two (imread : String → Option Img)
    (model : Tensor → List (List ℚ)) (prog : String) (argv : List String)
    (h : ∀ a ∈ argv, a = "--verbose") :
    (mainRun imread model prog argv).1 =
      [Event.printMsg ("error: the following arguments are required: image_path"),
       Event.exitProc 2] ∧
    (∀ q, Event.loadModel q ∉ (mainRun imread model prog argv).1) ∧
    Event.importTF ∉ (mainRun imread model prog argv).1 := by
  have hrest : argv.filter (fun a => a ≠ "--verbose") = [] := by
    rw [List.filter_eq_nil_iff]
    intro a ha
    simp [h a ha]
  have hp : parse_args argv =
      Except.error ("error: the following arguments are required: image_path") := by
    simp only [parse_args]
    rw [hrest]
    rfl
  refine ⟨by simp [mainRun, hp], ?_, by simp [mainRun, hp]⟩
  intro q
  simp [mainRun, hp]

/-- Witness for C4 (amended) at `argv = []`. -/
theorem missing_arg_exits_with_status_two_witness :
    (∀ a ∈ ([] : List String), a = "--verbose") ∧
    ((mainRun noneImread emptyModel ("solve_captcha.py") []).1 =
      [Event.printMsg ("error: the following arguments are required: image_path"),
       Event.exitProc 2] ∧
    (∀ q, Event.loadModel q ∉
      (mainRun noneImread emptyModel ("solve_captcha.py") []).1) ∧
    Event.importTF ∉
      (mainRun noneImread emptyModel ("solve_captcha.py") []).1) :=
  ⟨by simp,
    missing_arg_exits_with_status_two noneImread emptyModel
      ("solve_captcha.py") [] (by simp)⟩

/-- C8: in every run that parses its arguments, the logging-suppression
variable `TF_CPP_MIN_LOG_LEVEL=3` is set if and only if the `--verbose` flag
is absent from `argv`, and any such setting happens before the event that
imports TensorFlow, so the library observes it. -/
theorem env_suppression_iff_not_verbose (imread : String → Option Img)
    (model : Tensor → List (List ℚ)) (prog : String) (argv : List String)
    (v : Bool) (p : String) (h : parse_args argv = Except.ok (v, p)) :
    (Event.setEnvVar ("TF_CPP_MIN_LOG_LEVEL") ("3") ∈
        (mainRun imread model prog argv).1 ↔
      argv.contains ("--verbose") = false) ∧
    (∃ tail, (mainRun imread model prog argv).1 =
      (if argv.contains ("--verbose") then [] else
        [Event.setEnvVar ("TF_CPP_MIN_LOG_LEVEL") ("3")]) ++
        Event.importTF :: tail) := by
  rw [← parse_args_ok_verbose argv v p h]
  by_cases hp : p = ""
  · subst hp
    cases v
    · exact ⟨by simp [mainRun, h],
        ⟨[Event.printMsg (usageMsg prog), Event.exitProc 1],
          by simp [mainRun, h]⟩⟩
    · refine ⟨?_,
        ⟨[Event.printMsg (usageMsg prog), Event.exitProc 1],
          by simp [mainRun, h]⟩⟩
      simp [mainRun, h]
  · cases v
    · exact ⟨by simp [mainRun, h, hp],
        ⟨Event.loadModel MODEL_PATH :: (predict_captcha imread model p 0).1,
          by simp [mainRun, h, hp]⟩⟩
    · refine ⟨?_,
        ⟨Event.loadModel MODEL_PATH :: (predict_captcha imread model p 1).1,
          by simp [mainRun, h, hp]⟩⟩
      simp only [mainRun, h]
      simp [hp, predict_captcha_no_setenv imread model p 1
        ("TF_CPP_MIN_LOG_LEVEL") ("3")]

/-- Witness for C8 on a run with `--verbose` present (no suppression) —
applied at `argv = ["--verbose", "a.png"]`. -/
theorem env_suppression_iff_not_verbose_witness :
    parse_args (["--verbose", "a.png"]) = Except.ok (true, "a.png") ∧
    ((Event.setEnvVar ("TF_CPP_MIN_LOG_LEVEL") ("3") ∈
        (mainRun oneImread twoSlotModel ("solve_captcha.py")
          (["--verbose", "a.png"])).1 ↔
      (["--verbose", "a.png"]).contains ("--verbose") = false) ∧
    (∃ tail, (mainRun oneImread twoSlotModel ("solve_captcha.py")
        (["--verbose", "a.png"])).1 =
      (if (["--verbose", "a.png"]).contains ("--verbose") then [] else
        [Event.setEnvVar ("TF_CPP_MIN_LOG_LEVEL") ("3")]) ++
        Event.importTF :: tail)) :=
  ⟨by rfl,
    env_suppression_iff_not_verbose oneImread twoSlotModel
      ("solve_captcha.py") (["--verbose", "a.png"]) true ("a.png") (by rfl)⟩

/-- C9: when the positional image-path argument is supplied but parses to the
empty string, the program prints the usage message and exits with status 1
before the model is loaded and before any image load or inference is
attempted: the trace is exactly the optional suppression event, the
TensorFlow import, the usage message, and exit 1. -/
theorem empty_path_usage_exit (imread : String → Option Img)
    (model : Tensor → List (List ℚ)) (prog : String) (argv : List String)
    (v : Bool) (h : parse_args argv = Except.ok (v, "")) :
    (mainRun imread model prog argv).1 =
      (if v then [] else [Event.setEnvVar ("TF_CPP_MIN_LOG_LEVEL") ("3")]) ++
        [Event.importTF, Event.printMsg (usageMsg prog), Event.exitProc 1] ∧
    (∀ q, Event.loadModel q ∉ (mainRun imread model prog argv).1) ∧
    Event.runInference ∉ (mainRun imread model prog argv).1 := by
  have hmain : (mainRun imread model prog argv).1 =
      (if v then [] else [Event.setEnvVar ("TF_CPP_MIN_LOG_LEVEL") ("3")]) ++
        [Event.importTF, Event.printMsg (usageMsg prog), Event.exitProc 1] := by
    cases v <;> simp [mainRun, h]
  refine ⟨hmain, ?_, ?_⟩
  · intro q; rw [hmain]; cases v <;> simp
  · rw [hmain]; cases v <;> simp

/-- Witness for C9 at `argv = [""]`. -/
theorem empty_path_usage_exit_witness :
    parse_args ([""]) = Except.ok (false, "") ∧
    ((mainRun noneImread emptyModel ("solve_captcha.py") ([""])).1 =
      [Event.setEnvVar ("TF_CPP_MIN_LOG_LEVEL") ("3"), Event.importTF,
       Event.printMsg (usageMsg ("solve_captcha.py")), Event.exitProc 1] ∧
    (∀ q, Event.loadModel q ∉
      (mainRun noneImread emptyModel ("solve_captcha.py") ([""])).1) ∧
    Event.runInference ∉
      (mainRun noneImread emptyModel ("solve_captcha.py") ([""])).1) := by
  refine ⟨by rfl, ?_⟩
  have := empty_path_usage_exit noneImread emptyModel ("solve_captcha.py")
    ([""]) false (by rfl)
  simpa using this

/-- Every `getD` access returns a list element or the default. -/
lemma getD_mem_or_default {α : Type} (l : List α) (i : Nat) (d : α) :
    l.getD i d ∈ l ∨ l.getD i d = d := by
  by_cases h : i < l.length
  · rw [List.getD_eq_getElem l d h]
    exact Or.inl (List.getElem_mem h)
  · exact Or.inr (List.getD_eq_default l d (le_of_not_lt h))

/-- A `uint8` channel value divided by 255 lies in `[0, 1]`. -/
lemma normChannel_bounds (n : Nat) (h : n ≤ 255) :
    0 ≤ (n : ℚ) / 255 ∧ (n : ℚ) / 255 ≤ 1 := by
  constructor
  · positivity
  · rw [div_le_one (by norm_num)]
    exact_mod_cast h

/-- C5: resizing is unconditional — for an image of any resolution or aspect
ratio the resized raster has exactly `IMG_HEIGHT = 50` rows of
`IMG_WIDTH = 250` pixels each (the whole canvas is sampled from the source,
never letterboxed), and for `uint8` input (channels at most 255) the
normalisation by 255 yields channel values all within `[0, 1]`. -/
theorem resize_dims_and_normalize_range (img : Img)
    (hpix : ∀ row ∈ img, ∀ p ∈ row, p.1 ≤ 255 ∧ p.2.1 ≤ 255 ∧ p.2.2 ≤ 255) :
    (cv2Resize img).length = IMG_HEIGHT ∧
    (∀ row ∈ cv2Resize img, row.length = IMG_WIDTH) ∧
    (∀ row ∈ normalizeImg (cv2Resize img), ∀ q ∈ row,
      (0 ≤ q.1 ∧ q.1 ≤ 1) ∧ (0 ≤ q.2.1 ∧ q.2.1 ≤ 1) ∧
      (0 ≤ q.2.2 ∧ q.2.2 ≤ 1)) := by
  have hbound : ∀ row ∈ cv2Resize img, ∀ p ∈ row,
      p.1 ≤ 255 ∧ p.2.1 ≤ 255 ∧ p.2.2 ≤ 255 := by
    intro row hrow p hp
    simp only [cv2Resize, List.mem_map, List.mem_range] at hrow
    obtain ⟨r, -, hrowEq⟩ := hrow
    subst hrowEq
    simp only [List.mem_map, List.mem_range] at hp
    obtain ⟨c, -, hpEq⟩ := hp
    subst hpEq
    rcases getD_mem_or_default (img.getD (r * img.length / IMG_HEIGHT) [])
        (c * (img.headD []).length / IMG_WIDTH) ((0, 0, 0) : Pixel) with
      hmem | hdef
    · rcases getD_mem_or_default img (r * img.length / IMG_HEIGHT)
          ([] : List Pixel) with hrm | hre
      · exact hpix _ hrm _ hmem
      · rw [hre] at hmem; cases hmem
    · rw [hdef]; exact ⟨Nat.zero_le _, Nat.zero_le _, Nat.zero_le _⟩
  refine ⟨by simp [cv2Resize], ?_, ?_⟩
  · intro row hrow
    simp only [cv2Resize, List.mem_map, List.mem_range] at hrow
    obtain ⟨r, -, hrowEq⟩ := hrow
    subst hrowEq
    simp
  · intro row hrow q hq
    simp only [normalizeImg, List.mem_map] at hrow
    obtain ⟨row0, hrow0, hrowEq⟩ := hrow
    subst hrowEq
    simp only [List.mem_map] at hq
    obtain ⟨p, hp, hpEq⟩ := hq
    subst hpEq
    obtain ⟨h1, h2, h3⟩ := hbound row0 hrow0 p hp
    exact ⟨normChannel_bounds p.1 h1, normChannel_bounds p.2.1 h2,
      normChannel_bounds p.2.2 h3⟩

/-- Witness for C5 at the concrete 1×1 image `oneImg`, which is stretched to
250×50 with all normalised values in `[0, 1]`. -/
theorem resize_dims_and_normalize_range_witness :
    (∀ row ∈ oneImg, ∀ p ∈ row,
      p.1 ≤ 255 ∧ p.2.1 ≤ 255 ∧ p.2.2 ≤ 255) ∧
    ((cv2Resize oneImg).length = IMG_HEIGHT ∧
    (∀ row ∈ cv2Resize oneImg, row.length = IMG_WIDTH) ∧
    (∀ row ∈ normalizeImg (cv2Resize oneImg), ∀ q ∈ row,
      (0 ≤ q.1 ∧ q.1 ≤ 1) ∧ (0 ≤ q.2.1 ∧ q.2.1 ≤ 1) ∧
      (0 ≤ q.2.2 ∧ q.2.2 ≤ 1))) :=
  ⟨by decide, resize_dims_and_normalize_range oneImg (by decide)⟩

end SolveCaptcha
